import Mathlib

/-!
# Verification of the aspin-integration-service payment core

Shallow embedding of the payment orchestration core of the
aspin-integration-service repository:

* the transaction registry held by `PaymentService` (`src/services/payment.service.ts`,
  an in-memory `Map<string, PaymentTransaction>`),
* the gateway router `PaymentService.determineGateway`,
* the idempotency store `IdempotencyService` (`src/services/idempotency.service.ts`),
* the webhook processor `PaymentService.handleWebhook`,
* the outbound notifier `AspinPaymentService` (`src/services/aspin-payment.service.ts`),
* the credential cache `AspinAuthService.getAccessToken`
  (`src/services/aspin-auth.service.ts`).

Modelling conventions: wall-clock instants (`new Date()`) are natural numbers
counted in seconds; the generated transaction id (`uuidv4`), the gateway
reference (`WSR_${Date.now()}`) and the success or failure of network calls
are nondeterministic in the source and are therefore passed as explicit
parameters.  JavaScript `Map`s are association lists with `Map.set` replacing
in place.  All side effects of a method (registry writes, ledger writes,
outbound notifier requests, the thrown error if any) are returned explicitly,
so that an exception thrown mid-method still leaves behind the mutations that
preceded it, exactly as in the source.
-/

/-- The currency enumeration of `InitiatePaymentRequestSchema`
(`src/types/payment.types.ts`): `["KES", "UGX", "RWF", "ZMW", "ZAR"]`. -/
inductive Currency
  | KES | UGX | RWF | ZMW | ZAR
  deriving DecidableEq, Repr

/-- Status of a `PaymentTransaction` record
(`"pending" | "processing" | "completed" | "failed"` in
`src/types/payment.types.ts`). -/
inductive TxStatus
  | pending | processing | completed | failed
  deriving DecidableEq, Repr

/-- Status carried by a PaymentHub webhook
(`z.enum(["completed", "failed", "pending"])` in `PaymentHubWebhookSchema`). -/
inductive WebhookStatus
  | completed | failed | pending
  deriving DecidableEq, Repr

/-- The gateway enumeration `PaymentGateway` of `src/types/payment.types.ts`. -/
inductive PaymentGateway
  | mpesa | airtel
  deriving DecidableEq, Repr

/-- `handleWebhook` assigns `transaction.status = webhook.status` directly:
the webhook status enum injects into the transaction status enum. -/
def WebhookStatus.toTxStatus : WebhookStatus → TxStatus
  | .completed => .completed
  | .failed => .failed
  | .pending => .pending

/-- The `PaymentTransaction` record of `src/types/payment.types.ts`.
Timestamps are seconds; `gatewayReference` is `none` until the gateway
responds (`gatewayReference?: string`). -/
structure PaymentTransaction where
  transactionId : String
  policyGuid : String
  amount : Nat
  currency : Currency
  msisdn : String
  status : TxStatus
  gateway : PaymentGateway
  gatewayReference : Option String
  createdAt : Nat
  updatedAt : Nat
  deriving DecidableEq, Repr

/-- The webhook payload (`PaymentHubWebhookSchema`): `transaction_id`,
`status`, `amount`, `currency`, `timestamp`, optional `mno_reference`. -/
structure PaymentHubWebhook where
  transaction_id : String
  status : WebhookStatus
  amount : Nat
  currency : Currency
  timestamp : Nat
  mno_reference : Option String
  deriving DecidableEq, Repr

/-! ## JavaScript `Map` as an association list -/

/-- `Map.get`: the value stored under `k`, if any. -/
def lookupStore {α : Type} : List (String × α) → String → Option α
  | [], _ => none
  | (k', v) :: rest, k => if k' = k then some v else lookupStore rest k

/-- `Map.set`: replace the binding of `k` if present, else append it. -/
def setStore {α : Type} : List (String × α) → String → α → List (String × α)
  | [], k, v => [(k, v)]
  | (k', v') :: rest, k, v =>
    if k' = k then (k, v) :: rest else (k', v') :: setStore rest k v

/-- `Map.delete`: remove the binding of `k`, if present. -/
def delStore {α : Type} : List (String × α) → String → List (String × α)
  | [], _ => []
  | (k', v') :: rest, k =>
    if k' = k then rest else (k', v') :: delStore rest k

/-! ## Gateway router (`PaymentService.determineGateway`) -/

/-- JavaScript `msisdn.match(/^p.../)` with an anchored literal-prefix
alternation is a starts-with test; modelled on the character list. -/
def strStartsWith (m p : String) : Bool :=
  p.data.isPrefixOf m.data

/-- `PaymentService.determineGateway` (src/services/payment.service.ts):
`/^00254(7[0-2]|79)/` selects M-Pesa, `/^00254(7[3-5]|77)/` selects Airtel,
otherwise default to M-Pesa when the msisdn starts with `00254` and to
Airtel otherwise. -/
def determineGateway (msisdn : String) : PaymentGateway :=
  if (strStartsWith msisdn ("0025470") || strStartsWith msisdn ("0025471") ||
      strStartsWith msisdn ("0025472") || strStartsWith msisdn ("0025479")) then
    PaymentGateway.mpesa
  else if (strStartsWith msisdn ("0025473") || strStartsWith msisdn ("0025474") ||
      strStartsWith msisdn ("0025475") || strStartsWith msisdn ("0025477")) then
    PaymentGateway.airtel
  else if strStartsWith msisdn ("00254") then
    PaymentGateway.mpesa
  else
    PaymentGateway.airtel

/-! ## Idempotency ledger (`IdempotencyService`) -/

/-- The payload `handleWebhook` stores in the ledger:
`{ processed: true, timestamp: ..., status: webhook.status }`. -/
structure IdemResponse where
  processed : Bool
  timestamp : Nat
  status : WebhookStatus
  deriving DecidableEq, Repr

/-- `IdempotencyRecord` of `src/types/payment.types.ts`: key, cached
response, absolute expiry instant. -/
structure IdempotencyRecord where
  key : String
  response : IdemResponse
  expiresAt : Nat
  deriving DecidableEq, Repr

/-- `config.idempotency.ttl` defaults to 86400 seconds
(src/config/config.ts: `parseInt(process.env.IDEMPOTENCY_TTL || "86400", 10)`). -/
def defaultIdempotencyTTL : Nat := 86400

/-- `IdempotencyService.get`: return the cached response when present and
unexpired; an expired record is deleted on read (a store mutation that
persists even when the caller later throws), and `none` is returned.
Returns the read result together with the possibly-shrunk store. -/
def idemGet (store : List (String × IdempotencyRecord)) (key : String)
    (now : Nat) : Option IdemResponse × List (String × IdempotencyRecord) :=
  match lookupStore store key with
  | none => (none, store)
  | some r =>
    if r.expiresAt < now then (none, delStore store key)
    else (some r.response, store)

/-- `IdempotencyService.set`: store the response under `key` with expiry
`now + ttl`. -/
def idemSet (store : List (String × IdempotencyRecord)) (key : String)
    (response : IdemResponse) (now ttl : Nat) :
    List (String × IdempotencyRecord) :=
  setStore store key ⟨key, response, now + ttl⟩

/-! ## Outbound notifier (`AspinPaymentService`) -/

/-- The outbound settlement status enum of `AspinPaymentUpdateSchema`:
`z.enum(["Succeeded", "Failed"])`. -/
inductive NotifyStatus
  | succeeded | failed
  deriving DecidableEq, Repr

/-- The outbound payload `AspinPaymentUpdate`
(`src/types/payment.types.ts`): policy guid, `amount_in_cents`,
`mno_reference`, status, the fixed channel tag `"ApiClient"`, and the
effective date.  `effected_at` is the formatted current calendar date in the
source (`YYYY-MM-DD` of `new Date()`); it is abstracted here as the clock
instant the processor read when building it. -/
structure AspinPaymentUpdate where
  policy_guid : String
  amount_in_cents : Nat
  mno_reference : String
  status : NotifyStatus
  channel : String
  effected_at : Nat
  deriving DecidableEq, Repr

/-- `AspinPaymentService.notifyPaymentSuccess`: builds the payload with
`amount_in_cents: amount * 100` (the source comment reads "Convert to
cents"), status `"Succeeded"`, channel `"ApiClient"`. -/
def notifyPaymentSuccess (policyGuid : String) (amount : Nat)
    (mnoReference : String) (effectedAt : Nat) : AspinPaymentUpdate :=
  { policy_guid := policyGuid
    amount_in_cents := amount * 100
    mno_reference := mnoReference
    status := NotifyStatus.succeeded
    channel := "ApiClient"
    effected_at := effectedAt }

/-- `AspinPaymentService.notifyPaymentFailure`: same payload with status
`"Failed"`, `amount_in_cents: amount * 100`. -/
def notifyPaymentFailure (policyGuid : String) (amount : Nat)
    (mnoReference : String) (effectedAt : Nat) : AspinPaymentUpdate :=
  { policy_guid := policyGuid
    amount_in_cents := amount * 100
    mno_reference := mnoReference
    status := NotifyStatus.failed
    channel := "ApiClient"
    effected_at := effectedAt }

/-! ## Webhook processor (`PaymentService.handleWebhook`) -/

/-- Shared mutable state touched by the orchestrator: the transaction
registry (`PaymentService.transactions`) and the idempotency ledger
(`IdempotencyService.store`). -/
structure SysState where
  transactions : List (String × PaymentTransaction)
  ledger : List (String × IdempotencyRecord)
  deriving DecidableEq, Repr

/-- The errors `handleWebhook` can throw: `Transaction not found: ...`, or
the rethrown notifier failure (`Failed to notify ASPIn of payment status`). -/
inductive WebhookError
  | transactionNotFound
  | notifierFailed
  deriving DecidableEq, Repr

/-- The observable outcome of one `handleWebhook` call: the state left
behind (including mutations that precede a thrown error), the outbound
notifier requests dispatched, and the error thrown, if any. -/
structure WebhookOutcome where
  state : SysState
  calls : List AspinPaymentUpdate
  error : Option WebhookError
  deriving DecidableEq, Repr

/-- `PaymentService.handleWebhook` (src/services/payment.service.ts):

1. `idempotencyService.get(webhook.transaction_id)` — on a hit, log and
   return (no further effects).
2. `this.transactions.get(webhook.transaction_id)` — on a miss, throw
   `Transaction not found`.
3. Mutate the record: `transaction.status = webhook.status`,
   `transaction.updatedAt = new Date()` (before the notifier call).
4. `mnoReference = webhook.mno_reference || webhook.transaction_id`.
5. If status is `completed` call `notifyPaymentSuccess`; if `failed` call
   `notifyPaymentFailure`; if `pending` call neither.  `notifierOk` is
   whether that network call succeeds; on failure the error is rethrown
   after the registry mutation already happened.
6. `idempotencyService.set(webhook.transaction_id, {...})` — only reached
   when the notifier call (if any) succeeded. -/
def handleWebhook (w : PaymentHubWebhook) (notifierOk : Bool) (now ttl : Nat)
    (st : SysState) : WebhookOutcome :=
  let read := idemGet st.ledger w.transaction_id now
  let st1 : SysState := { st with ledger := read.2 }
  match read.1 with
  | some _ => { state := st1, calls := [], error := none }
  | none =>
    match lookupStore st1.transactions w.transaction_id with
    | none => { state := st1, calls := [], error := some WebhookError.transactionNotFound }
    | some tx =>
      let tx' := { tx with status := w.status.toTxStatus, updatedAt := now }
      let st2 : SysState :=
        { st1 with transactions := setStore st1.transactions w.transaction_id tx' }
      let mnoReference := w.mno_reference.getD w.transaction_id
      let calls : List AspinPaymentUpdate :=
        match w.status with
        | .completed => [notifyPaymentSuccess tx.policyGuid tx.amount mnoReference now]
        | .failed => [notifyPaymentFailure tx.policyGuid tx.amount mnoReference now]
        | .pending => []
      if calls ≠ [] ∧ notifierOk = false then
        { state := st2, calls := calls, error := some WebhookError.notifierFailed }
      else
        let ledger2 := idemSet st2.ledger w.transaction_id ⟨true, now, w.status⟩ now ttl
        { state := { st2 with ledger := ledger2 }, calls := calls, error := none }

/-! ## Payment initiation (`PaymentService.initiatePayment`) -/

/-- The inbound initiation request (`InitiatePaymentRequestSchema`); the
opaque optional `customer_id`, `external_reference`, `description` and
`metadata` fields are not interpreted by the orchestration core and are not
modelled (no claim concerns them). -/
structure InitiatePaymentRequest where
  policy_guid : String
  amount : Nat
  currency : Currency
  msisdn : String
  deriving DecidableEq, Repr

/-- `InitiatePaymentResult` of `src/services/payment-gateway.service.ts`. -/
structure InitiatePaymentResult where
  transactionId : String
  gatewayReference : String
  status : TxStatus
  deriving DecidableEq, Repr

/-- `PaymentGatewayService.initiateMpesaPayment`: the mock returns a fresh
provider transaction id and gateway reference (both nondeterministic, passed
in) and the literal status `"pending"`. -/
def initiateMpesaPayment (mockTxnId gatewayReference : String) :
    InitiatePaymentResult :=
  { transactionId := mockTxnId
    gatewayReference := gatewayReference
    status := TxStatus.pending }

/-- `PaymentGatewayService.initiateAirtelPayment`: likewise returns the
literal status `"pending"`. -/
def initiateAirtelPayment (mockTxnId gatewayReference : String) :
    InitiatePaymentResult :=
  { transactionId := mockTxnId
    gatewayReference := gatewayReference
    status := TxStatus.pending }

/-- `PaymentGatewayService.initiatePayment`: dispatch on the selected
gateway.  (`PaymentGateway` has exactly the two handled cases, so the
`Unsupported gateway` throw is unreachable.) -/
def gatewayInitiatePayment (gateway : PaymentGateway)
    (mockTxnId gatewayReference : String) : InitiatePaymentResult :=
  match gateway with
  | .mpesa => initiateMpesaPayment mockTxnId gatewayReference
  | .airtel => initiateAirtelPayment mockTxnId gatewayReference

/-- The errors `initiatePayment` can throw: the KES amount validation
(`Invalid payment amount. KES 5,000 required for this policy`), or a
propagated gateway failure (timeout / unavailability of the channel call). -/
inductive InitiateError
  | invalidAmount
  | gatewayFailed
  deriving DecidableEq, Repr

/-- Observable outcome of one `initiatePayment` call: the registry left
behind, the returned `{ transactionId, status }` on success, and the thrown
error, if any. -/
structure InitiateOutcome where
  transactions : List (String × PaymentTransaction)
  result : Option (String × TxStatus)
  error : Option InitiateError
  deriving DecidableEq, Repr

/-- `PaymentService.initiatePayment` (src/services/payment.service.ts):

1. Validate: `if (request.currency === "KES" && request.amount !== 5000)`
   throw before any mutation.
2. Generate `transactionId` (uuid, nondeterministic — passed in).
3. `determineGateway(request.msisdn)`.
4. Store the record with `status: "pending"` and no gateway reference.
5. Await the gateway initiation (`gatewayOk` is whether it succeeds; on
   failure the record stored in step 4 stays behind and the error
   propagates).
6. Mutate the stored record with the gateway's reference and status, and
   return `{ transactionId, status }`. -/
def initiatePayment (req : InitiatePaymentRequest) (transactionId : String)
    (gatewayOk : Bool) (mockGatewayTxnId gatewayReference : String) (now : Nat)
    (transactions : List (String × PaymentTransaction)) : InitiateOutcome :=
  if req.currency = Currency.KES ∧ req.amount ≠ 5000 then
    { transactions := transactions, result := none,
      error := some InitiateError.invalidAmount }
  else
    let gateway := determineGateway req.msisdn
    let tx : PaymentTransaction :=
      { transactionId := transactionId
        policyGuid := req.policy_guid
        amount := req.amount
        currency := req.currency
        msisdn := req.msisdn
        status := TxStatus.pending
        gateway := gateway
        gatewayReference := none
        createdAt := now
        updatedAt := now }
    let transactions1 := setStore transactions transactionId tx
    if gatewayOk = false then
      { transactions := transactions1, result := none,
        error := some InitiateError.gatewayFailed }
    else
      let gatewayResult := gatewayInitiatePayment gateway mockGatewayTxnId gatewayReference
      let tx' := { tx with
        gatewayReference := some gatewayResult.gatewayReference
        status := gatewayResult.status
        updatedAt := now }
      { transactions := setStore transactions1 transactionId tx'
        result := some (transactionId, gatewayResult.status)
        error := none }

/-! ## Credential cache (`AspinAuthService`) -/

/-- The mutable fields of `AspinAuthService`: `accessToken` and
`tokenExpiry`, both nullable. -/
structure AuthState where
  accessToken : Option String
  tokenExpiry : Option Nat
  deriving DecidableEq, Repr

/-- The cache check of `getAccessToken`:
`this.accessToken && this.tokenExpiry && this.tokenExpiry > new Date()`. -/
def cachedTokenValid (st : AuthState) (now : Nat) : Bool :=
  match st.accessToken, st.tokenExpiry with
  | some _, some expiry => now < expiry
  | _, _ => false

/-- Upstream authentication requests dispatched by `n` concurrent
`getAccessToken()` calls that arrive in the same event-loop turn.
`getAccessToken` synchronously runs the cache check and, when the check
fails, calls `authenticate()`, which dispatches the `/oauth/token` HTTP
request and suspends at its `await`; `accessToken`/`tokenExpiry` are only
assigned when a response arrives, which cannot happen before every
concurrent caller has run this synchronous prefix.  The service keeps no
in-flight refresh promise, so each caller that fails the check dispatches
its own request against the unchanged state. -/
def concurrentAuthRequests (n : Nat) (st : AuthState) (now : Nat) : Nat :=
  match n with
  | 0 => 0
  | Nat.succ m =>
    (if cachedTokenValid st now then 0 else 1) + concurrentAuthRequests m st now

/-! ## Iterated deliveries -/

/-- Deliver the same webhook `n` times in sequence (all within one clock
instant), threading the state; returns the final state and the total number
of outbound notifier requests dispatched. -/
def deliverTimes (w : PaymentHubWebhook) (notifierOk : Bool) (now ttl : Nat) :
    Nat → SysState → SysState × Nat
  | 0, st => (st, 0)
  | Nat.succ m, st =>
    let o := handleWebhook w notifierOk now ttl st
    let rest := deliverTimes w notifierOk now ttl m o.state
    (rest.1, o.calls.length + rest.2)

/-- Run an arbitrary sequence of webhook deliveries (each with its own
notifier outcome and clock instant), threading the state. -/
def runWebhooks (ttl : Nat) :
    List (PaymentHubWebhook × Bool × Nat) → SysState → SysState
  | [], st => st
  | e :: rest, st =>
    runWebhooks ttl rest (handleWebhook e.1 e.2.1 e.2.2 ttl st).state

/-! ## Concrete example values (used by witnesses and counterexamples) -/

/-- A transaction record already in the terminal state `completed`. -/
def exTxCompleted : PaymentTransaction :=
  { transactionId := "TXN_1"
    policyGuid := "P1"
    amount := 5000
    currency := Currency.KES
    msisdn := "00254712345678"
    status := TxStatus.completed
    gateway := PaymentGateway.mpesa
    gatewayReference := some "WSR_1"
    createdAt := 0
    updatedAt := 0 }

/-- The same record still in `processing`. -/
def exTxProcessing : PaymentTransaction :=
  { exTxCompleted with status := TxStatus.processing }

/-- Registry holding the completed record, ledger empty (no entry, or the
entry already expired and was swept). -/
def exStateCompleted : SysState :=
  { transactions := [("TXN_1", exTxCompleted)], ledger := [] }

/-- Registry holding the processing record, ledger empty. -/
def exStateProcessing : SysState :=
  { transactions := [("TXN_1", exTxProcessing)], ledger := [] }

/-- A webhook reporting outcome `failed` for that transaction. -/
def exWebhookFailed : PaymentHubWebhook :=
  { transaction_id := "TXN_1"
    status := WebhookStatus.failed
    amount := 5000
    currency := Currency.KES
    timestamp := 10
    mno_reference := some "MNO_1" }

/-- The same delivery with outcome `completed`. -/
def exWebhookCompleted : PaymentHubWebhook :=
  { exWebhookFailed with status := WebhookStatus.completed }

/-- The same delivery with outcome `pending`. -/
def exWebhookPending : PaymentHubWebhook :=
  { exWebhookFailed with status := WebhookStatus.pending }

/-- A live ledger entry for transaction `TXN_1` (expires at 86400). -/
def exLedgerEntry : IdempotencyRecord :=
  { key := "TXN_1"
    response := { processed := true, timestamp := 0, status := WebhookStatus.completed }
    expiresAt := 86400 }

/-- Registry holding the completed record together with its still-live
ledger entry. -/
def exStateCompletedLedger : SysState :=
  { transactions := [("TXN_1", exTxCompleted)]
    ledger := [("TXN_1", exLedgerEntry)] }

/-- A valid initiation request (amount 5000 KES, M-Pesa subscriber). -/
def exRequest : InitiatePaymentRequest :=
  { policy_guid := "P1"
    amount := 5000
    currency := Currency.KES
    msisdn := "00254712345678" }

/-- The same request with amount 3000 (violates the fixed-amount policy). -/
def exRequestBadAmount : InitiatePaymentRequest :=
  { exRequest with amount := 3000 }

/-- C7: The gateway router is total and deterministic: it is a pure function
that yields a channel (M-Pesa or Airtel) for every subscriber identifier and
never fails, and subscriber "00254712345678" routes to M-Pesa. -/
theorem determineGateway_total_and_example :
    (∀ msisdn : String,
      determineGateway msisdn = PaymentGateway.mpesa ∨
      determineGateway msisdn = PaymentGateway.airtel) ∧
    determineGateway ("00254712345678") = PaymentGateway.mpesa := by
  constructor
  · intro msisdn
    unfold determineGateway
    repeat' split
    all_goals simp
  · rfl

/-! ## Store lemmas -/

theorem lookupStore_setStore_self {α : Type} (l : List (String × α)) (k : String) (v : α) :
    lookupStore (setStore l k v) k = some v := by
  induction l with
  | nil => simp [setStore, lookupStore]
  | cons hd tl ih =>
    obtain ⟨k', v'⟩ := hd
    by_cases h : k' = k
    · simp [setStore, h, lookupStore]
    · simp [setStore, h, lookupStore, ih]

theorem lookupStore_setStore_ne {α : Type} (l : List (String × α)) (k k2 : String)
    (v : α) (h : k2 ≠ k) :
    lookupStore (setStore l k v) k2 = lookupStore l k2 := by
  induction l with
  | nil => simp [setStore, lookupStore, Ne.symm h]
  | cons hd tl ih =>
    obtain ⟨k', v'⟩ := hd
    by_cases hk : k' = k
    · subst hk
      simp [setStore, lookupStore, Ne.symm h]
    · simp [setStore, hk, lookupStore, ih]

/-! ## Behaviour lemmas for `handleWebhook` -/

/-- A live ledger hit makes the whole call a successful no-op, whatever the
webhook carries and whatever the notifier would do. -/
theorem handleWebhook_ledger_hit (w : PaymentHubWebhook) (ok : Bool) (now ttl : Nat)
    (st : SysState) (r : IdempotencyRecord)
    (hl : lookupStore st.ledger w.transaction_id = some r)
    (hlive : ¬ r.expiresAt < now) :
    handleWebhook w ok now ttl st = ⟨st, [], none⟩ := by
  simp [handleWebhook, idemGet, hl, hlive]

/-- Fresh event key, known transaction, outcome `completed`, notifier
succeeding: the record is overwritten to `completed`, one success
notification is dispatched, and the ledger entry is written. -/
theorem handleWebhook_fresh_completed (w : PaymentHubWebhook) (now ttl : Nat)
    (st : SysState) (tx : PaymentTransaction)
    (hw : w.status = WebhookStatus.completed)
    (hL : lookupStore st.ledger w.transaction_id = none)
    (hT : lookupStore st.transactions w.transaction_id = some tx) :
    handleWebhook w true now ttl st =
      ⟨⟨setStore st.transactions w.transaction_id
          { tx with status := TxStatus.completed, updatedAt := now },
        idemSet st.ledger w.transaction_id
          ⟨true, now, WebhookStatus.completed⟩ now ttl⟩,
       [notifyPaymentSuccess tx.policyGuid tx.amount
          (w.mno_reference.getD w.transaction_id) now],
       none⟩ := by
  simp [handleWebhook, idemGet, hL, hT, hw, WebhookStatus.toTxStatus]

/-- Fresh event key, known transaction, outcome `failed`, notifier
succeeding: analogous with one failure notification. -/
theorem handleWebhook_fresh_failed (w : PaymentHubWebhook) (now ttl : Nat)
    (st : SysState) (tx : PaymentTransaction)
    (hw : w.status = WebhookStatus.failed)
    (hL : lookupStore st.ledger w.transaction_id = none)
    (hT : lookupStore st.transactions w.transaction_id = some tx) :
    handleWebhook w true now ttl st =
      ⟨⟨setStore st.transactions w.transaction_id
          { tx with status := TxStatus.failed, updatedAt := now },
        idemSet st.ledger w.transaction_id
          ⟨true, now, WebhookStatus.failed⟩ now ttl⟩,
       [notifyPaymentFailure tx.policyGuid tx.amount
          (w.mno_reference.getD w.transaction_id) now],
       none⟩ := by
  simp [handleWebhook, idemGet, hL, hT, hw, WebhookStatus.toTxStatus]

/-- Fresh event key, known transaction, outcome `pending`: the record status
is overwritten to `pending`, no notification is dispatched (so the notifier
outcome is irrelevant), and the ledger entry is still written. -/
theorem handleWebhook_fresh_pending (w : PaymentHubWebhook) (ok : Bool)
    (now ttl : Nat) (st : SysState) (tx : PaymentTransaction)
    (hw : w.status = WebhookStatus.pending)
    (hL : lookupStore st.ledger w.transaction_id = none)
    (hT : lookupStore st.transactions w.transaction_id = some tx) :
    handleWebhook w ok now ttl st =
      ⟨⟨setStore st.transactions w.transaction_id
          { tx with status := TxStatus.pending, updatedAt := now },
        idemSet st.ledger w.transaction_id
          ⟨true, now, WebhookStatus.pending⟩ now ttl⟩,
       [], none⟩ := by
  simp [handleWebhook, idemGet, hL, hT, hw, WebhookStatus.toTxStatus]

/-- Whenever a fresh delivery for a known transaction terminates without an
error, the ledger entry for the transaction id has been written with expiry
`now + ttl`. -/
theorem handleWebhook_success_ledger (w : PaymentHubWebhook) (ok : Bool)
    (now ttl : Nat) (st : SysState) (tx : PaymentTransaction)
    (hL : lookupStore st.ledger w.transaction_id = none)
    (hT : lookupStore st.transactions w.transaction_id = some tx)
    (herr : (handleWebhook w ok now ttl st).error = none) :
    (handleWebhook w ok now ttl st).state.ledger =
      idemSet st.ledger w.transaction_id ⟨true, now, w.status⟩ now ttl := by
  cases hws : w.status <;> cases ok <;>
    simp [handleWebhook, idemGet, hL, hT, hws] at herr ⊢

/-- Iterating deliveries on a state whose ledger already holds a live entry
for the key changes nothing and dispatches nothing. -/
theorem deliverTimes_noop (w : PaymentHubWebhook) (ok : Bool) (now ttl : Nat)
    (st : SysState) (r : IdempotencyRecord) (m : Nat)
    (hl : lookupStore st.ledger w.transaction_id = some r)
    (hlive : ¬ r.expiresAt < now) :
    deliverTimes w ok now ttl m st = (st, 0) := by
  induction m with
  | zero => rfl
  | succ k ih =>
    simp [deliverTimes, handleWebhook_ledger_hit w ok now ttl st r hl hlive, ih]

/-- One webhook delivery never changes the amount or currency of any
registry record. -/
theorem handleWebhook_preserves_amount_currency (w : PaymentHubWebhook) (ok : Bool)
    (now ttl : Nat) (st : SysState) (key : String) (tx : PaymentTransaction)
    (h : lookupStore st.transactions key = some tx) :
    ∃ tx2, lookupStore (handleWebhook w ok now ttl st).state.transactions key = some tx2 ∧
      tx2.amount = tx.amount ∧ tx2.currency = tx.currency := by
  unfold handleWebhook
  dsimp only
  split
  · exact ⟨tx, h, rfl, rfl⟩
  · split
    · exact ⟨tx, h, rfl, rfl⟩
    · next tx0 heq =>
      have heq' : lookupStore st.transactions w.transaction_id = some tx0 := heq
      split
      · by_cases hk : key = w.transaction_id
        · subst hk
          rw [h] at heq'
          injection heq' with he
          subst he
          exact ⟨_, lookupStore_setStore_self _ _ _, rfl, rfl⟩
        · exact ⟨tx, by rw [lookupStore_setStore_ne _ _ _ _ hk]; exact h, rfl, rfl⟩
      · by_cases hk : key = w.transaction_id
        · subst hk
          rw [h] at heq'
          injection heq' with he
          subst he
          exact ⟨_, lookupStore_setStore_self _ _ _, rfl, rfl⟩
        · exact ⟨tx, by rw [lookupStore_setStore_ne _ _ _ _ hk]; exact h, rfl, rfl⟩

/-- No sequence of webhook deliveries changes the amount or currency of any
registry record. -/
theorem runWebhooks_preserves_amount_currency (ttl : Nat)
    (events : List (PaymentHubWebhook × Bool × Nat)) (st : SysState)
    (key : String) (tx : PaymentTransaction)
    (h : lookupStore st.transactions key = some tx) :
    ∃ tx2, lookupStore (runWebhooks ttl events st).transactions key = some tx2 ∧
      tx2.amount = tx.amount ∧ tx2.currency = tx.currency := by
  induction events generalizing st tx with
  | nil => exact ⟨tx, h, rfl, rfl⟩
  | cons e rest ih =>
    obtain ⟨tx2, h2, ha, hc⟩ :=
      handleWebhook_preserves_amount_currency e.1 e.2.1 e.2.2 ttl st key tx h
    obtain ⟨tx3, h3, ha3, hc3⟩ := ih ((handleWebhook e.1 e.2.1 e.2.2 ttl st).state) tx2 h2
    exact ⟨tx3, by simpa [runWebhooks] using h3, ha3.trans ha, hc3.trans hc⟩

/-! ## Claim theorems -/

/-- C1 counterexample: the claim is false as stated.  With the record
terminal (`completed`) but the Idempotency Ledger holding no entry for the
transaction, a further webhook delivery with outcome `failed` is not a
no-op: it overwrites the terminal state (a second transition) and dispatches
a notification. -/
theorem handleWebhook_terminal_overwritten_when_ledger_empty :
    exTxCompleted.status = TxStatus.completed ∧
    (handleWebhook exWebhookFailed true 10 86400 exStateCompleted).state.transactions =
      [("TXN_1", { exTxCompleted with status := TxStatus.failed, updatedAt := 10 })] ∧
    (handleWebhook exWebhookFailed true 10 86400 exStateCompleted).calls ≠ [] := by
  decide

/-- C1 (amended): once a transaction record is terminal (`completed` or
`failed`), a further webhook delivery for it leaves the record's state
unchanged and completes as a successful no-op — no error, no second
transition, no notifier call — provided the Idempotency Ledger still holds
an unexpired entry for the transaction id (the ledger entry, not the
terminal state, is what suppresses the duplicate). -/
theorem handleWebhook_terminal_noop_with_live_ledger_entry
    (w : PaymentHubWebhook) (ok : Bool) (now ttl : Nat) (st : SysState)
    (tx : PaymentTransaction) (r : IdempotencyRecord)
    (_hT : lookupStore st.transactions w.transaction_id = some tx)
    (_hterm : tx.status = TxStatus.completed ∨ tx.status = TxStatus.failed)
    (hl : lookupStore st.ledger w.transaction_id = some r)
    (hlive : ¬ r.expiresAt < now) :
    handleWebhook w ok now ttl st = ⟨st, [], none⟩ :=
  handleWebhook_ledger_hit w ok now ttl st r hl hlive

/-- Witness for C1 (amended) at a concrete terminal record with a live
ledger entry. -/
theorem handleWebhook_terminal_noop_with_live_ledger_entry_witness :
    handleWebhook exWebhookFailed true 10 86400 exStateCompletedLedger =
      ⟨exStateCompletedLedger, [], none⟩ :=
  handleWebhook_terminal_noop_with_live_ledger_entry exWebhookFailed true 10 86400
    exStateCompletedLedger exTxCompleted exLedgerEntry (by decide) (Or.inl rfl)
    (by decide) (by decide)

/-- C2 counterexample: the claim is false as stated for webhooks with
outcome `pending`: a single delivery (N = 1) of a pending webhook for a
registered transaction produces zero Notifier invocations, not exactly
one. -/
theorem deliverTimes_pending_zero_notifications :
    (deliverTimes exWebhookPending true 10 86400 1 exStateProcessing).2 = 0 ∧
    (deliverTimes exWebhookPending true 10 86400 1 exStateProcessing).2 ≠ 1 := by
  decide

/-- C2 (amended): for a webhook whose outcome is `completed` or `failed`,
whose transaction is registered, whose event key has no ledger entry yet and
whose notifier call succeeds, delivering it N ≥ 1 times in sequence produces
exactly one Notifier invocation, and every delivery after the first is a
no-op: the final state is exactly the state reached after the first
delivery. -/
theorem deliverTimes_completed_exactly_one_notification
    (w : PaymentHubWebhook) (now ttl : Nat) (st : SysState)
    (tx : PaymentTransaction) (n : Nat)
    (hw : w.status = WebhookStatus.completed ∨ w.status = WebhookStatus.failed)
    (hL : lookupStore st.ledger w.transaction_id = none)
    (hT : lookupStore st.transactions w.transaction_id = some tx)
    (hn : 1 ≤ n) :
    deliverTimes w true now ttl n st = ((handleWebhook w true now ttl st).state, 1) := by
  obtain ⟨m, rfl⟩ : ∃ m, n = m + 1 := ⟨n - 1, by omega⟩
  have herr : (handleWebhook w true now ttl st).error = none := by
    rcases hw with hw | hw
    · rw [handleWebhook_fresh_completed w now ttl st tx hw hL hT]
    · rw [handleWebhook_fresh_failed w now ttl st tx hw hL hT]
  have hcalls : (handleWebhook w true now ttl st).calls.length = 1 := by
    rcases hw with hw | hw
    · rw [handleWebhook_fresh_completed w now ttl st tx hw hL hT]
      rfl
    · rw [handleWebhook_fresh_failed w now ttl st tx hw hL hT]
      rfl
  have hledger := handleWebhook_success_ledger w true now ttl st tx hL hT herr
  have hlook : lookupStore (handleWebhook w true now ttl st).state.ledger w.transaction_id =
      some ⟨w.transaction_id, ⟨true, now, w.status⟩, now + ttl⟩ := by
    rw [hledger]
    exact lookupStore_setStore_self _ _ _
  have hnoop := deliverTimes_noop w true now ttl (handleWebhook w true now ttl st).state
    ⟨w.transaction_id, ⟨true, now, w.status⟩, now + ttl⟩ m hlook
    (by show ¬ now + ttl < now; omega)
  simp [deliverTimes, hnoop, hcalls]

/-- Witness for C2 (amended): three sequential deliveries of a completed
webhook notify exactly once. -/
theorem deliverTimes_completed_exactly_one_notification_witness :
    deliverTimes exWebhookCompleted true 10 86400 3 exStateProcessing =
      ((handleWebhook exWebhookCompleted true 10 86400 exStateProcessing).state, 1) :=
  deliverTimes_completed_exactly_one_notification exWebhookCompleted 10 86400
    exStateProcessing exTxProcessing 3 (Or.inl rfl) (by decide) (by decide) (by decide)

/-- C3 counterexample: the claim is false as stated.  A `pending` webhook
for a registered transaction indeed dispatches no notification, but it does
not leave registry and ledger state unchanged: the record's status is
overwritten to `pending` and an Idempotency Ledger entry is written. -/
theorem handleWebhook_pending_mutates_state :
    (handleWebhook exWebhookPending true 10 86400 exStateProcessing).calls = [] ∧
    (handleWebhook exWebhookPending true 10 86400 exStateProcessing).state.ledger ≠
      exStateProcessing.ledger ∧
    lookupStore (handleWebhook exWebhookPending true 10 86400 exStateProcessing).state.transactions
      ("TXN_1") = some { exTxProcessing with status := TxStatus.pending, updatedAt := 10 } := by
  decide

/-- C3 (amended): a webhook delivery with outcome `pending` (fresh event
key, registered transaction) produces no Notifier invocation and no error,
but it does mutate state: the record's status becomes `pending` (with
`updatedAt` refreshed) and a ledger entry for the transaction id is
written. -/
theorem handleWebhook_pending_no_notify_but_writes
    (w : PaymentHubWebhook) (ok : Bool) (now ttl : Nat) (st : SysState)
    (tx : PaymentTransaction)
    (hw : w.status = WebhookStatus.pending)
    (hL : lookupStore st.ledger w.transaction_id = none)
    (hT : lookupStore st.transactions w.transaction_id = some tx) :
    handleWebhook w ok now ttl st =
      ⟨⟨setStore st.transactions w.transaction_id
          { tx with status := TxStatus.pending, updatedAt := now },
        idemSet st.ledger w.transaction_id ⟨true, now, WebhookStatus.pending⟩ now ttl⟩,
       [], none⟩ :=
  handleWebhook_fresh_pending w ok now ttl st tx hw hL hT

/-- Witness for C3 (amended) at a concrete pending delivery. -/
theorem handleWebhook_pending_no_notify_but_writes_witness :
    handleWebhook exWebhookPending true 10 86400 exStateProcessing =
      ⟨⟨setStore exStateProcessing.transactions ("TXN_1")
          { exTxProcessing with status := TxStatus.pending, updatedAt := 10 },
        idemSet exStateProcessing.ledger ("TXN_1")
          ⟨true, 10, WebhookStatus.pending⟩ 10 86400⟩,
       [], none⟩ :=
  handleWebhook_pending_no_notify_but_writes exWebhookPending true 10 86400
    exStateProcessing exTxProcessing rfl (by decide) (by decide)

/-- Both mock gateway adapters report the literal status `"pending"`. -/
theorem gatewayInitiatePayment_status (gateway : PaymentGateway) (a b : String) :
    (gatewayInitiatePayment gateway a b).status = TxStatus.pending := by
  cases gateway <;> rfl

/-- Full outcome of a successful `initiatePayment`: the record is stored in
`pending`, then updated in place with the gateway reference and the
gateway's reported status, which is again `pending`. -/
theorem initiatePayment_ok (req : InitiatePaymentRequest)
    (transactionId mockGatewayTxnId gatewayReference : String) (now : Nat)
    (transactions : List (String × PaymentTransaction))
    (hval : ¬ (req.currency = Currency.KES ∧ req.amount ≠ 5000)) :
    initiatePayment req transactionId true mockGatewayTxnId gatewayReference now transactions =
      { transactions := setStore (setStore transactions transactionId
          { transactionId := transactionId, policyGuid := req.policy_guid,
            amount := req.amount, currency := req.currency, msisdn := req.msisdn,
            status := TxStatus.pending, gateway := determineGateway req.msisdn,
            gatewayReference := none, createdAt := now, updatedAt := now })
          transactionId
          { transactionId := transactionId, policyGuid := req.policy_guid,
            amount := req.amount, currency := req.currency, msisdn := req.msisdn,
            status := TxStatus.pending, gateway := determineGateway req.msisdn,
            gatewayReference := some gatewayReference, createdAt := now, updatedAt := now }
        result := some (transactionId, TxStatus.pending)
        error := none } := by
  cases hg : determineGateway req.msisdn <;>
    simp [initiatePayment, hval, hg, gatewayInitiatePayment,
      initiateMpesaPayment, initiateAirtelPayment]

/-- C4 counterexample: the claim is false as stated.  A concrete successful
initiation leaves the record in state `pending`, not `Processing`: the mock
gateway reports `pending` and `initiatePayment` stores that status. -/
theorem initiatePayment_success_status_pending_not_processing :
    (initiatePayment exRequest ("TXN_9") true ("MPESA_9") ("WSR_9") 5 []).error = none ∧
    (initiatePayment exRequest ("TXN_9") true ("MPESA_9") ("WSR_9") 5 []).result =
      some ("TXN_9", TxStatus.pending) ∧
    lookupStore (initiatePayment exRequest ("TXN_9") true ("MPESA_9") ("WSR_9") 5 []).transactions
      ("TXN_9") =
      some { transactionId := "TXN_9", policyGuid := "P1", amount := 5000,
             currency := Currency.KES, msisdn := "00254712345678",
             status := TxStatus.pending, gateway := PaymentGateway.mpesa,
             gatewayReference := some "WSR_9", createdAt := 5, updatedAt := 5 } ∧
    TxStatus.pending ≠ TxStatus.processing := by
  decide

/-- C4 (amended): after a valid initiation succeeds, the record exists with
state `pending` (not `Processing`), its amount and currency equal the
request's, and they are immutable thereafter: no sequence of webhook
deliveries ever changes them. -/
theorem initiatePayment_success_pending_amount_currency_immutable
    (req : InitiatePaymentRequest)
    (transactionId mockGatewayTxnId gatewayReference : String) (now : Nat)
    (transactions : List (String × PaymentTransaction))
    (hval : ¬ (req.currency = Currency.KES ∧ req.amount ≠ 5000)) :
    ∃ tx,
      (initiatePayment req transactionId true mockGatewayTxnId gatewayReference now
        transactions).error = none ∧
      lookupStore (initiatePayment req transactionId true mockGatewayTxnId gatewayReference now
        transactions).transactions transactionId = some tx ∧
      tx.status = TxStatus.pending ∧ tx.amount = req.amount ∧ tx.currency = req.currency ∧
      ∀ (ttl : Nat) (events : List (PaymentHubWebhook × Bool × Nat))
        (ledger : List (String × IdempotencyRecord)),
        ∃ tx2,
          lookupStore (runWebhooks ttl events
            ⟨(initiatePayment req transactionId true mockGatewayTxnId gatewayReference now
              transactions).transactions, ledger⟩).transactions transactionId = some tx2 ∧
          tx2.amount = tx.amount ∧ tx2.currency = tx.currency := by
  rw [initiatePayment_ok req transactionId mockGatewayTxnId gatewayReference now
    transactions hval]
  refine ⟨_, rfl, lookupStore_setStore_self _ _ _, rfl, rfl, rfl, ?_⟩
  intro ttl events ledger
  refine runWebhooks_preserves_amount_currency ttl events _ transactionId _ ?_
  exact lookupStore_setStore_self _ _ _

/-- Witness for C4 (amended) at a concrete valid initiation. -/
theorem initiatePayment_success_pending_amount_currency_immutable_witness :
    ∃ tx,
      (initiatePayment exRequest ("TXN_9") true ("MPESA_9") ("WSR_9") 5 []).error = none ∧
      lookupStore (initiatePayment exRequest ("TXN_9") true ("MPESA_9") ("WSR_9") 5
        []).transactions ("TXN_9") = some tx ∧
      tx.status = TxStatus.pending ∧ tx.amount = exRequest.amount ∧
      tx.currency = exRequest.currency ∧
      ∀ (ttl : Nat) (events : List (PaymentHubWebhook × Bool × Nat))
        (ledger : List (String × IdempotencyRecord)),
        ∃ tx2,
          lookupStore (runWebhooks ttl events
            ⟨(initiatePayment exRequest ("TXN_9") true ("MPESA_9") ("WSR_9") 5
              []).transactions, ledger⟩).transactions ("TXN_9") = some tx2 ∧
          tx2.amount = tx.amount ∧ tx2.currency = tx.currency :=
  initiatePayment_success_pending_amount_currency_immutable exRequest ("TXN_9")
    ("MPESA_9") ("WSR_9") 5 [] (by decide)

/-- C5 counterexample: the claim is false as stated.  For a stored amount of
5000 the outbound notification carries `amount_in_cents = 500000`, not the
recorded amount 5000: the notifier multiplies the stored amount by 100. -/
theorem notifier_amount_times_hundred_example :
    (handleWebhook exWebhookCompleted true 10 86400 exStateProcessing).calls =
      [{ policy_guid := "P1", amount_in_cents := 500000, mno_reference := "MNO_1",
         status := NotifyStatus.succeeded, channel := "ApiClient", effected_at := 10 }] ∧
    exTxProcessing.amount = 5000 ∧
    (500000 : Nat) ≠ 5000 := by
  decide

/-- C5 (amended): for every processed webhook with outcome `completed` or
`failed`, exactly one notification is dispatched and its `amount_in_cents`
equals 100 times the amount stored in the transaction record (the service
treats the stored amount as whole currency units and converts to cents). -/
theorem handleWebhook_notifier_amount_in_cents
    (w : PaymentHubWebhook) (now ttl : Nat) (st : SysState) (tx : PaymentTransaction)
    (hw : w.status = WebhookStatus.completed ∨ w.status = WebhookStatus.failed)
    (hL : lookupStore st.ledger w.transaction_id = none)
    (hT : lookupStore st.transactions w.transaction_id = some tx) :
    (handleWebhook w true now ttl st).calls.length = 1 ∧
    ∀ c ∈ (handleWebhook w true now ttl st).calls, c.amount_in_cents = tx.amount * 100 := by
  rcases hw with hw | hw
  · rw [handleWebhook_fresh_completed w now ttl st tx hw hL hT]
    refine ⟨rfl, ?_⟩
    intro c hc
    simp only [List.mem_singleton] at hc
    subst hc
    rfl
  · rw [handleWebhook_fresh_failed w now ttl st tx hw hL hT]
    refine ⟨rfl, ?_⟩
    intro c hc
    simp only [List.mem_singleton] at hc
    subst hc
    rfl

/-- Witness for C5 (amended) at a concrete completed delivery. -/
theorem handleWebhook_notifier_amount_in_cents_witness :
    (handleWebhook exWebhookCompleted true 10 86400 exStateProcessing).calls.length = 1 ∧
    ∀ c ∈ (handleWebhook exWebhookCompleted true 10 86400 exStateProcessing).calls,
      c.amount_in_cents = exTxProcessing.amount * 100 :=
  handleWebhook_notifier_amount_in_cents exWebhookCompleted 10 86400 exStateProcessing
    exTxProcessing (Or.inl rfl) (by decide) (by decide)

/-- C6: an initiation request with currency KES and amount different from
5000 is rejected with the invalid-amount validation error, and the registry
is left exactly as it was (the throw precedes any record creation). -/
theorem initiatePayment_invalid_kes_amount_rejected
    (req : InitiatePaymentRequest)
    (transactionId mockGatewayTxnId gatewayReference : String) (gatewayOk : Bool)
    (now : Nat) (transactions : List (String × PaymentTransaction))
    (hc : req.currency = Currency.KES) (ha : req.amount ≠ 5000) :
    initiatePayment req transactionId gatewayOk mockGatewayTxnId gatewayReference now
      transactions =
      { transactions := transactions, result := none,
        error := some InitiateError.invalidAmount } := by
  simp [initiatePayment, hc, ha]

/-- Witness for C6 at the spec scenario: amount 3000, currency KES. -/
theorem initiatePayment_invalid_kes_amount_rejected_witness :
    initiatePayment exRequestBadAmount ("TXN_9") true ("MPESA_9") ("WSR_9") 5 [] =
      { transactions := [], result := none,
        error := some InitiateError.invalidAmount } :=
  initiatePayment_invalid_kes_amount_rejected exRequestBadAmount ("TXN_9") ("MPESA_9")
    ("WSR_9") true 5 [] rfl (by decide)

/-- C8: the ledger entry is only written after the notifier call succeeds:
when the notifier call fails during a delivery with outcome `completed` or
`failed`, `handleWebhook` terminates with the ledger exactly as the initial
idempotency read left it — no entry is written for the event key. -/
theorem handleWebhook_no_ledger_write_on_notifier_failure
    (w : PaymentHubWebhook) (now ttl : Nat) (st : SysState)
    (hw : w.status = WebhookStatus.completed ∨ w.status = WebhookStatus.failed) :
    (handleWebhook w false now ttl st).state.ledger =
      (idemGet st.ledger w.transaction_id now).2 := by
  rcases hw with hw | hw <;>
  · unfold handleWebhook
    dsimp only
    split
    · rfl
    · split
      · rfl
      · simp [hw]

/-- Witness for C8 at a concrete failing notifier call. -/
theorem handleWebhook_no_ledger_write_on_notifier_failure_witness :
    (handleWebhook exWebhookCompleted false 10 86400 exStateProcessing).state.ledger =
      (idemGet exStateProcessing.ledger ("TXN_1") 10).2 :=
  handleWebhook_no_ledger_write_on_notifier_failure exWebhookCompleted 10 86400
    exStateProcessing (Or.inl rfl)

/-- C9 counterexample: the claim is false as stated.  Two concurrent
`getAccessToken()` calls while no credential is cached dispatch two
re-authentication requests, not one: the service keeps no in-flight refresh
to share. -/
theorem concurrentAuthRequests_two_callers_two_requests :
    concurrentAuthRequests 2 ⟨none, none⟩ 0 = 2 ∧
    concurrentAuthRequests 2 ⟨none, none⟩ 0 ≠ 1 := by
  decide

/-- C9 (amended): N concurrent `getAccessToken()` calls made while the
cached credential is absent or expired dispatch N re-authentication
requests, one per caller — there is no single-flight sharing of the
in-flight refresh. -/
theorem concurrentAuthRequests_eq_callers_when_invalid
    (n : Nat) (st : AuthState) (now : Nat)
    (h : cachedTokenValid st now = false) :
    concurrentAuthRequests n st now = n := by
  induction n with
  | zero => rfl
  | succ m ih =>
    simp [concurrentAuthRequests, h, ih]
    omega

/-- Witness for C9 (amended): five concurrent callers, empty cache, five
authentication requests. -/
theorem concurrentAuthRequests_eq_callers_when_invalid_witness :
    concurrentAuthRequests 5 ⟨none, none⟩ 0 = 5 :=
  concurrentAuthRequests_eq_callers_when_invalid 5 ⟨none, none⟩ 0 rfl

/-- C10: the webhook processor keys the Idempotency Ledger on the
transaction identifier.  Once any webhook for a transaction (whatever its
outcome, `pending` included) has been processed without error, every
subsequent webhook carrying the same transaction identifier — even with a
different outcome or reference — is a successful no-op as long as the entry
is within its TTL (`config.idempotency.ttl`, default 86400 seconds). -/
theorem handleWebhook_ledger_keyed_by_transaction_blocks_until_ttl
    (w : PaymentHubWebhook) (ok : Bool) (now ttl : Nat) (st : SysState)
    (tx : PaymentTransaction)
    (hL : lookupStore st.ledger w.transaction_id = none)
    (hT : lookupStore st.transactions w.transaction_id = some tx)
    (herr : (handleWebhook w ok now ttl st).error = none) :
    defaultIdempotencyTTL = 86400 ∧
    ∀ (w2 : PaymentHubWebhook) (ok2 : Bool) (now2 : Nat),
      w2.transaction_id = w.transaction_id → now2 ≤ now + ttl →
      handleWebhook w2 ok2 now2 ttl ((handleWebhook w ok now ttl st).state) =
        ⟨(handleWebhook w ok now ttl st).state, [], none⟩ := by
  refine ⟨rfl, ?_⟩
  intro w2 ok2 now2 hkey hle
  have hledger := handleWebhook_success_ledger w ok now ttl st tx hL hT herr
  have hlook : lookupStore (handleWebhook w ok now ttl st).state.ledger w2.transaction_id =
      some ⟨w.transaction_id, ⟨true, now, w.status⟩, now + ttl⟩ := by
    rw [hkey, hledger]
    exact lookupStore_setStore_self _ _ _
  exact handleWebhook_ledger_hit w2 ok2 now2 ttl _ _ hlook
    (by show ¬ now + ttl < now2; omega)

/-- Witness for C10: a `pending` webhook is processed first; a later
`failed` webhook for the same transaction id within the TTL is a no-op. -/
theorem handleWebhook_ledger_keyed_by_transaction_blocks_until_ttl_witness :
    defaultIdempotencyTTL = 86400 ∧
    handleWebhook exWebhookFailed true 20 86400
        ((handleWebhook exWebhookPending true 10 86400 exStateProcessing).state) =
      ⟨(handleWebhook exWebhookPending true 10 86400 exStateProcessing).state, [], none⟩ :=
  ⟨(handleWebhook_ledger_keyed_by_transaction_blocks_until_ttl exWebhookPending true 10
      86400 exStateProcessing exTxProcessing (by decide) (by decide) (by decide)).1,
   (handleWebhook_ledger_keyed_by_transaction_blocks_until_ttl exWebhookPending true 10
      86400 exStateProcessing exTxProcessing (by decide) (by decide) (by decide)).2
     exWebhookFailed true 20 rfl (by omega)⟩
